import Mathlib

/-!
Verification model of the real-time WAV playback engine
(class RealTimeWavPlayer in src/audio/audio_player.py).

The player object is modelled as a record of its fields; each method is a
pure function on that record.  The background worker thread launched by
start is modelled by one atomic scheduling step per loop iteration
(worker_step); a run of the worker is a fold of such steps.  The fake
output device records every successful write in the writes field, counts
stream opens in sessions_opened and thread launches in threads_launched,
and takes a Boolean per step saying whether a device write performed in
that step succeeds.  Queue elements are either real chunks or the None
sentinel that stop puts on the queue.
-/

/-- pyaudio portaudio sample-format constant paInt32. -/
def paInt32 : Nat := 2

/-- pyaudio portaudio sample-format constant paInt24. -/
def paInt24 : Nat := 4

/-- pyaudio portaudio sample-format constant paInt16. -/
def paInt16 : Nat := 8

/-- pyaudio portaudio sample-format constant paInt8. -/
def paInt8 : Nat := 16

/-- A chunk is an opaque byte buffer. -/
abbrev Chunk := List Nat

/-- An element of audio_queue: a real chunk, or the None value that stop
puts on the queue as the stop signal. -/
inductive QElem
  | chunk (c : Chunk)
  | sentinel
deriving DecidableEq, Repr

/-- Where the worker thread of _play_worker stands: not launched, launched
but the stream not yet opened, inside the while loop with the stream open,
or exited. -/
inductive WorkerPhase
  | idle
  | launched
  | looping
  | finished
deriving DecidableEq, Repr

/-- The fields of a RealTimeWavPlayer object, together with the
bookkeeping of the fake device (writes, sessions_opened,
threads_launched). -/
structure RealTimeWavPlayer where
  chunk_size : Nat
  queue : List QElem
  capacity : Nat
  is_playing : Bool
  sample_width : Option Nat
  channels : Option Nat
  sample_rate : Option Nat
  format : Option Nat
  stream_open : Bool
  worker : WorkerPhase
  sessions_opened : Nat
  threads_launched : Nat
  writes : List Chunk
  terminated : Bool
deriving DecidableEq, Repr

/-- The constructor: audio_queue has maxsize 100, no format fields are
set, nothing is playing. -/
def init (chunk_size : Nat) : RealTimeWavPlayer :=
  { chunk_size := chunk_size
    queue := []
    capacity := 100
    is_playing := false
    sample_width := none
    channels := none
    sample_rate := none
    format := none
    stream_open := false
    worker := WorkerPhase.idle
    sessions_opened := 0
    threads_launched := 0
    writes := []
    terminated := false }

/-- Truthiness of an optional integer field, as the built-in all applies
it in start: None and 0 are both falsy. -/
def truthy : Option Nat → Bool
  | none => false
  | some n => n != 0

/-- The format_mapping dictionary lookup of set_audio_format, with
paInt16 as the fallback for an unrecognized width. -/
def format_mapping (sample_width : Nat) : Nat :=
  if sample_width = 1 then paInt8
  else if sample_width = 2 then paInt16
  else if sample_width = 3 then paInt24
  else if sample_width = 4 then paInt32
  else paInt16

/-- set_audio_format: store the triple and derive the pyaudio format. -/
def set_audio_format (p : RealTimeWavPlayer)
    (sample_width channels sample_rate : Nat) : RealTimeWavPlayer :=
  { p with
    sample_width := some sample_width
    channels := some channels
    sample_rate := some sample_rate
    format := some (format_mapping sample_width) }

/-- The check all [sample_width, channels, sample_rate] performed by
start, under truthiness. -/
def formatConfigured (p : RealTimeWavPlayer) : Bool :=
  truthy p.sample_width && truthy p.channels && truthy p.sample_rate

/-- The message of the ValueError start raises when the format is not
set. -/
def formatNotSetMsg : String :=
  "Audio format not set. Call set_audio_format() or extract_wav_info() first."

/-- start: a no-op when already playing; raises ValueError (returned as
some message, the object unchanged) when the format fields are not all
truthy; otherwise sets is_playing and launches the worker thread. -/
def start (p : RealTimeWavPlayer) : RealTimeWavPlayer × Option String :=
  if p.is_playing then (p, none)
  else if !(formatConfigured p) then (p, some formatNotSetMsg)
  else ({ p with
          is_playing := true
          worker := WorkerPhase.launched
          threads_launched := p.threads_launched + 1 }, none)

/-- add_chunk: when playing, a non-blocking put that succeeds exactly
when the queue is below maxsize and otherwise catches queue.Full and
returns false; when not playing, returns false at once. -/
def add_chunk (p : RealTimeWavPlayer) (c : Chunk) :
    RealTimeWavPlayer × Bool :=
  if p.is_playing then
    if p.queue.length < p.capacity then
      ({ p with queue := p.queue ++ [QElem.chunk c] }, true)
    else (p, false)
  else (p, false)

/-- One atomic scheduling step of the worker thread of _play_worker.
A launched worker opens and starts the stream.  A looping worker first
checks is_playing: if the flag is clear it leaves the loop, stops and
closes the stream and clears is_playing.  Otherwise it performs one get:
an empty queue is the queue.Empty timeout (continue); the None sentinel
breaks the loop; a real chunk is written to the stream, and writeOk says
whether that device write succeeds — on failure the worker logs the
exception and breaks the loop.  Leaving the loop always stops and closes
the stream. -/
def worker_step (p : RealTimeWavPlayer) (writeOk : Bool) :
    RealTimeWavPlayer :=
  if p.worker = WorkerPhase.launched then
    { p with
      stream_open := true
      sessions_opened := p.sessions_opened + 1
      worker := WorkerPhase.looping }
  else if p.worker = WorkerPhase.looping then
    if p.is_playing then
      match p.queue with
      | [] => p
      | QElem.sentinel :: rest =>
          { p with
            queue := rest
            stream_open := false
            worker := WorkerPhase.finished
            is_playing := false }
      | QElem.chunk c :: rest =>
          if writeOk then
            { p with queue := rest, writes := p.writes ++ [c] }
          else
            { p with
              queue := rest
              stream_open := false
              worker := WorkerPhase.finished
              is_playing := false }
    else
      { p with
        stream_open := false
        worker := WorkerPhase.finished
        is_playing := false }
  else p

/-- A run of the worker thread: one worker_step per scheduling slot, the
list giving the success of the device write attempted in each slot. -/
def runWorker (p : RealTimeWavPlayer) (oks : List Bool) :
    RealTimeWavPlayer :=
  oks.foldl worker_step p

/-- stop: a no-op when not playing; otherwise clears is_playing, puts the
None sentinel on the queue to signal the worker, joins it with a bounded
timeout (no state change), then drains and discards everything left on
the queue — the net effect on the queue of the sentinel put followed by
the full drain is to empty it. -/
def stop (p : RealTimeWavPlayer) : RealTimeWavPlayer :=
  if p.is_playing then
    { p with is_playing := false, queue := [] }
  else p

/-- close: stop, then terminate the PyAudio instance. -/
def close (p : RealTimeWavPlayer) : RealTimeWavPlayer :=
  { stop p with terminated := true }

/-- The sentinel put performed inside stop, in isolation: the None value
appended behind everything already queued. -/
def withSentinel (p : RealTimeWavPlayer) : RealTimeWavPlayer :=
  { p with queue := p.queue ++ [QElem.sentinel] }

/-- Enqueue a list of chunks one add_chunk call at a time, collecting the
Boolean results in order. -/
def addChunks (p : RealTimeWavPlayer) (cs : List Chunk) :
    RealTimeWavPlayer × List Bool :=
  match cs with
  | [] => (p, [])
  | c :: rest =>
      ((addChunks (add_chunk p c).1 rest).1,
       (add_chunk p c).2 :: (addChunks (add_chunk p c).1 rest).2)

/-- A freshly constructed player with the default chunk size of the
example usage. -/
def p0 : RealTimeWavPlayer := init 1024

/-- The player of the concrete scenario of the design: 16-bit mono at
44100 Hz. -/
def pConf : RealTimeWavPlayer := set_audio_format p0 2 1 44100

/-- The configured player right after start: playing, worker launched. -/
def pStarted : RealTimeWavPlayer := (start pConf).1

/-- The player once the worker has opened the stream and entered its
loop. -/
def pLoop : RealTimeWavPlayer := worker_step pStarted true

/-- A sample chunk. -/
def cA : Chunk := [42]

/-- A second sample chunk. -/
def cB : Chunk := [7]

/-- The looping player with one chunk successfully enqueued. -/
def pEnq : RealTimeWavPlayer := (add_chunk pLoop cA).1

/-! Helper lemmas. -/

theorem runWorker_nil (p : RealTimeWavPlayer) : runWorker p [] = p := rfl

theorem runWorker_cons (p : RealTimeWavPlayer) (ok : Bool) (oks : List Bool) :
    runWorker p (ok :: oks) = runWorker (worker_step p ok) oks := rfl

theorem stop_is_playing (p : RealTimeWavPlayer) :
    (stop p).is_playing = false := by
  by_cases h : p.is_playing <;> simp [stop, h]

theorem worker_step_not_playing (p : RealTimeWavPlayer) (ok : Bool)
    (h : p.is_playing = false) :
    (worker_step p ok).writes = p.writes
      ∧ (worker_step p ok).is_playing = false := by
  by_cases h1 : p.worker = WorkerPhase.launched
  · simp [worker_step, h1, h]
  · by_cases h2 : p.worker = WorkerPhase.looping
    · simp [worker_step, h1, h2, h]
    · simp [worker_step, h1, h2, h]

theorem runWorker_not_playing (oks : List Bool) :
    ∀ p : RealTimeWavPlayer, p.is_playing = false →
      (runWorker p oks).writes = p.writes
        ∧ (runWorker p oks).is_playing = false := by
  induction oks with
  | nil => intro p h; exact ⟨rfl, h⟩
  | cons ok oks ih =>
      intro p h
      rw [runWorker_cons]
      obtain ⟨hw, hp⟩ := worker_step_not_playing p ok h
      obtain ⟨hw2, hp2⟩ := ih (worker_step p ok) hp
      exact ⟨hw2.trans hw, hp2⟩

theorem worker_step_finished (p : RealTimeWavPlayer) (ok : Bool)
    (h : p.worker = WorkerPhase.finished) : worker_step p ok = p := by
  simp [worker_step, h]

theorem runWorker_finished (oks : List Bool) :
    ∀ p : RealTimeWavPlayer, p.worker = WorkerPhase.finished →
      runWorker p oks = p := by
  induction oks with
  | nil => intro p _; rfl
  | cons ok oks ih =>
      intro p h
      rw [runWorker_cons, worker_step_finished p ok h]
      exact ih p h

theorem worker_step_write (p : RealTimeWavPlayer) (c : Chunk)
    (rest : List QElem) (hw : p.worker = WorkerPhase.looping)
    (hp : p.is_playing = true) (hq : p.queue = QElem.chunk c :: rest) :
    worker_step p true
      = { p with queue := rest, writes := p.writes ++ [c] } := by
  simp [worker_step, hw, hp, hq]

theorem runWorker_drain (cs : List Chunk) :
    ∀ (p : RealTimeWavPlayer) (rest : List QElem),
      p.worker = WorkerPhase.looping → p.is_playing = true →
      p.queue = cs.map QElem.chunk ++ rest →
      runWorker p (List.replicate cs.length true)
        = { p with queue := rest, writes := p.writes ++ cs } := by
  induction cs with
  | nil =>
      intro p rest _ _ hq
      simp only [List.map_nil, List.nil_append] at hq
      simp [runWorker, ← hq]
  | cons c cs ih =>
      intro p rest hw hp hq
      simp only [List.map_cons, List.cons_append] at hq
      rw [List.length_cons, List.replicate_succ, runWorker_cons,
        worker_step_write p c (cs.map QElem.chunk ++ rest) hw hp hq]
      have hih := ih
        { p with queue := cs.map QElem.chunk ++ rest
                 writes := p.writes ++ [c] }
        rest hw hp rfl
      rw [hih]
      simp [List.append_assoc]

theorem addChunks_all_ok (cs : List Chunk) :
    ∀ p : RealTimeWavPlayer, p.is_playing = true →
      p.queue.length + cs.length ≤ p.capacity →
      addChunks p cs
        = ({ p with queue := p.queue ++ cs.map QElem.chunk },
           List.replicate cs.length true) := by
  induction cs with
  | nil => intro p _ _; simp [addChunks]
  | cons c cs ih =>
      intro p hp hlen
      have hlt : p.queue.length < p.capacity := by
        simp only [List.length_cons] at hlen
        omega
      have hstep : add_chunk p c
          = ({ p with queue := p.queue ++ [QElem.chunk c] }, true) := by
        simp [add_chunk, hp, hlt]
      have hlen2 : (p.queue ++ [QElem.chunk c]).length + cs.length
          ≤ p.capacity := by
        simp only [List.length_append, List.length_cons, List.length_nil,
          List.length_cons] at hlen ⊢
        omega
      have hih := ih { p with queue := p.queue ++ [QElem.chunk c] } hp hlen2
      simp only [addChunks, hstep, hih]
      simp [List.replicate_succ, List.append_assoc]

/-! Claim theorems. -/

/-- C2: add_chunk returns true and appends the chunk at the queue tail
exactly when the session is playing and the queue size is strictly below
the capacity (100 by default from the constructor); in every other case
it returns false and leaves the object, in particular every element
already queued, unchanged.  The function is total, so it never blocks and
never raises. -/
theorem c2_add_chunk_spec (p : RealTimeWavPlayer) (c : Chunk) :
    ((add_chunk p c).2 = true
      ↔ (p.is_playing = true ∧ p.queue.length < p.capacity))
    ∧ ((add_chunk p c).2 = true →
        (add_chunk p c).1 = { p with queue := p.queue ++ [QElem.chunk c] })
    ∧ ((add_chunk p c).2 = false → (add_chunk p c).1 = p)
    ∧ (init 1024).capacity = 100 := by
  by_cases hp : p.is_playing
  · by_cases hl : p.queue.length < p.capacity
    · simp [add_chunk, hp, hl, init]
    · simp [add_chunk, hp, hl, init]
  · simp [add_chunk, hp, init]

/-- C2 witness: on the concrete playing player with an empty queue the
enqueue succeeds and appends at the tail; on a fresh player it fails and
changes nothing. -/
theorem c2_add_chunk_spec_witness :
    (add_chunk pLoop cA).2 = true ∧ (add_chunk p0 cA).1 = p0 :=
  ⟨((c2_add_chunk_spec pLoop cA).1).mpr (by constructor <;> decide),
   (c2_add_chunk_spec p0 cA).2.2.1 (by decide)⟩

/-- C4: start on a player whose format fields were never set fails with
the ValueError message, changes no field of the object — in particular it
launches no worker thread, opens no device session and leaves is_playing
false — so the caller can configure and retry. -/
theorem c4_start_unset (p : RealTimeWavPlayer)
    (hp : p.is_playing = false) (h1 : p.sample_width = none)
    (_h2 : p.channels = none) (_h3 : p.sample_rate = none) :
    start p = (p, some formatNotSetMsg)
    ∧ (start p).1.threads_launched = p.threads_launched
    ∧ (start p).1.sessions_opened = p.sessions_opened
    ∧ (start p).1.is_playing = false := by
  have hc : formatConfigured p = false := by
    simp [formatConfigured, h1, truthy]
  refine ⟨?_, ?_, ?_, ?_⟩ <;> simp [start, hp, hc]

/-- C4 witness: a freshly constructed player. -/
theorem c4_start_unset_witness :
    start (init 1024) = (init 1024, some formatNotSetMsg) :=
  (c4_start_unset (init 1024) rfl rfl rfl rfl).1

/-- C6: start on an already playing session is a no-op that returns
normally — the state stays playing and no further device session or
worker thread is created — and stop on a session that is not playing is a
no-op that modifies neither the queue nor the worker. -/
theorem c6_idempotent (p q : RealTimeWavPlayer) :
    (p.is_playing = true →
      start p = (p, none)
      ∧ (start p).1.sessions_opened = p.sessions_opened
      ∧ (start p).1.threads_launched = p.threads_launched)
    ∧ (q.is_playing = false → stop q = q) := by
  constructor
  · intro hp
    refine ⟨?_, ?_, ?_⟩ <;> simp [start, hp]
  · intro hq
    simp [stop, hq]

/-- C6 witness: a second start on the playing player pLoop is a no-op,
and stop on a fresh player is a no-op. -/
theorem c6_idempotent_witness :
    start pLoop = (pLoop, none) ∧ stop (init 1024) = init 1024 :=
  ⟨((c6_idempotent pLoop (init 1024)).1 (by decide)).1,
   (c6_idempotent pLoop (init 1024)).2 (by decide)⟩

/-- C7: close is stop followed by terminating the PyAudio instance: when
the session is still playing, stop runs first, and the transition to the
closed (terminated) state happens unconditionally; after close the
session is not playing, and a repeated close is a no-op that reopens no
device session. -/
theorem c7_close_spec (p : RealTimeWavPlayer) :
    close p = { stop p with terminated := true }
    ∧ (close p).is_playing = false
    ∧ (close p).terminated = true
    ∧ close (close p) = close p
    ∧ (close p).sessions_opened = p.sessions_opened := by
  have h1 : (close p).is_playing = false := stop_is_playing p
  have h2 : stop (close p) = close p := by
    simp [stop, h1]
  refine ⟨rfl, h1, rfl, ?_, ?_⟩
  · show { stop (close p) with terminated := true } = close p
    rw [h2]
    exact rfl
  · by_cases hp : p.is_playing <;> simp [close, stop, hp]

/-- C8: set_audio_format stores exactly the triple it was given and
derives the device encoding through format_mapping, which sends widths
1, 2, 3, 4 to the signed encodings paInt8, paInt16, paInt24, paInt32
respectively and every other width to the paInt16 fallback. -/
theorem c8_format_mapping_spec (p : RealTimeWavPlayer)
    (sw ch sr : Nat) :
    ((set_audio_format p sw ch sr).sample_width = some sw
      ∧ (set_audio_format p sw ch sr).channels = some ch
      ∧ (set_audio_format p sw ch sr).sample_rate = some sr
      ∧ (set_audio_format p sw ch sr).format = some (format_mapping sw))
    ∧ (format_mapping 1 = paInt8 ∧ format_mapping 2 = paInt16
      ∧ format_mapping 3 = paInt24 ∧ format_mapping 4 = paInt32)
    ∧ (sw ≠ 1 → sw ≠ 2 → sw ≠ 3 → sw ≠ 4 →
        format_mapping sw = paInt16) := by
  refine ⟨⟨rfl, rfl, rfl, rfl⟩, ⟨rfl, rfl, rfl, rfl⟩, ?_⟩
  intro h1 h2 h3 h4
  simp [format_mapping, h1, h2, h3, h4]

/-- C8 witness: the unrecognized width 7 falls back to paInt16, and a
concrete configuration stores its arguments. -/
theorem c8_format_mapping_spec_witness :
    format_mapping 7 = paInt16
    ∧ (set_audio_format (init 1024) 7 1 8000).sample_width = some 7 :=
  ⟨(c8_format_mapping_spec (init 1024) 7 1 8000).2.2
      (by decide) (by decide) (by decide) (by decide),
   (c8_format_mapping_spec (init 1024) 7 1 8000).1.1⟩

/-- C9: when set_audio_format was called with a zero sample width, zero
channel count or zero sample rate, a subsequent start fails with the very
same ValueError as when no format was ever configured, changes nothing —
in particular it launches no worker thread — because the truthiness check
of start treats a zero field like an unset one. -/
theorem c9_zero_format_start (p : RealTimeWavPlayer) (sw ch sr : Nat)
    (hp : p.is_playing = false) (h : sw = 0 ∨ ch = 0 ∨ sr = 0) :
    start (set_audio_format p sw ch sr)
      = (set_audio_format p sw ch sr, some formatNotSetMsg)
    ∧ (start (set_audio_format p sw ch sr)).1.threads_launched
      = p.threads_launched
    ∧ (start (set_audio_format p sw ch sr)).1.is_playing = false := by
  have hc : formatConfigured (set_audio_format p sw ch sr) = false := by
    rcases h with h | h | h <;>
      simp [formatConfigured, set_audio_format, truthy, h]
  have hp2 : (set_audio_format p sw ch sr).is_playing = false := hp
  have hmain : start (set_audio_format p sw ch sr)
      = (set_audio_format p sw ch sr, some formatNotSetMsg) := by
    simp [start, hp2, hc]
  refine ⟨hmain, ?_, ?_⟩
  · rw [hmain]
    exact rfl
  · rw [hmain]
    exact hp

/-- C9 witness: a zero sample width makes start fail exactly like an
unconfigured player. -/
theorem c9_zero_format_start_witness :
    start (set_audio_format (init 1024) 0 2 44100)
      = (set_audio_format (init 1024) 0 2 44100, some formatNotSetMsg) :=
  (c9_zero_format_start (init 1024) 0 2 44100 rfl (Or.inl rfl)).1

/-- C10: stop never touches the configured format: sample width,
channels, sample rate, the derived device encoding and the chunk size all
survive a stop unchanged, so a later start reuses the identical
format. -/
theorem c10_stop_preserves_format (p : RealTimeWavPlayer) :
    (stop p).sample_width = p.sample_width
    ∧ (stop p).channels = p.channels
    ∧ (stop p).sample_rate = p.sample_rate
    ∧ (stop p).format = p.format
    ∧ (stop p).chunk_size = p.chunk_size := by
  by_cases hp : p.is_playing <;>
    refine ⟨?_, ?_, ?_, ?_, ?_⟩ <;> simp [stop, hp]

theorem runWorker_append (p : RealTimeWavPlayer) (xs ys : List Bool) :
    runWorker p (xs ++ ys) = runWorker (runWorker p xs) ys := by
  simp [runWorker, List.foldl_append]

/-- C1: chunks successfully enqueued while the session is playing are
written to the device exactly in enqueue order: enqueuing N ≤ capacity
chunks into the empty queue of a playing session succeeds for all N of
them, the queue then holds them in enqueue order, and N successful worker
steps write exactly those N chunks in that order; with the stop sentinel
placed behind them, after every j ≤ N worker steps the sentinel is still
queued behind the chunks not yet played, and the step after the N-th —
strictly after every chunk enqueued before the sentinel — dequeues the
sentinel and ends the worker. -/
theorem c1_fifo_order (p : RealTimeWavPlayer) (cs : List Chunk)
    (hw : p.worker = WorkerPhase.looping) (hp : p.is_playing = true)
    (hq : p.queue = []) (hlen : cs.length ≤ p.capacity) :
    (addChunks p cs).2 = List.replicate cs.length true
    ∧ (addChunks p cs).1.queue = cs.map QElem.chunk
    ∧ (runWorker (addChunks p cs).1
        (List.replicate cs.length true)).writes = p.writes ++ cs
    ∧ (∀ j, j ≤ cs.length →
        (runWorker (withSentinel (addChunks p cs).1)
          (List.replicate j true)).queue
          = (cs.drop j).map QElem.chunk ++ [QElem.sentinel])
    ∧ (runWorker (withSentinel (addChunks p cs).1)
        (List.replicate (cs.length + 1) true)).writes = p.writes ++ cs
    ∧ (runWorker (withSentinel (addChunks p cs).1)
        (List.replicate (cs.length + 1) true)).worker
        = WorkerPhase.finished := by
  have hlen' : p.queue.length + cs.length ≤ p.capacity := by
    rw [hq]
    simpa using hlen
  have hadd := addChunks_all_ok cs p hp hlen'
  rw [hq] at hadd
  simp only [List.nil_append] at hadd
  have h1 : (addChunks p cs).1 = { p with queue := cs.map QElem.chunk } := by
    rw [hadd]
  have h2 : (addChunks p cs).2 = List.replicate cs.length true := by
    rw [hadd]
  have hdrain := runWorker_drain cs { p with queue := cs.map QElem.chunk }
    [] hw hp (by simp)
  have hsent : ∀ j, j ≤ cs.length →
      runWorker (withSentinel { p with queue := cs.map QElem.chunk })
        (List.replicate j true)
      = { p with queue := (cs.drop j).map QElem.chunk ++ [QElem.sentinel]
                 writes := p.writes ++ cs.take j } := by
    intro j hj
    have hqs : (withSentinel { p with queue := cs.map QElem.chunk }).queue
        = (cs.take j).map QElem.chunk
          ++ ((cs.drop j).map QElem.chunk ++ [QElem.sentinel]) := by
      show cs.map QElem.chunk ++ [QElem.sentinel] = _
      rw [← List.append_assoc, ← List.map_append, List.take_append_drop]
    have hlj : (cs.take j).length = j := by
      rw [List.length_take]
      omega
    have hd := runWorker_drain (cs.take j)
      (withSentinel { p with queue := cs.map QElem.chunk })
      ((cs.drop j).map QElem.chunk ++ [QElem.sentinel]) hw hp hqs
    rw [hlj] at hd
    rw [hd]
    exact rfl
  have hfinal : runWorker (withSentinel { p with queue := cs.map QElem.chunk })
      (List.replicate (cs.length + 1) true)
      = { p with queue := []
                 stream_open := false
                 worker := WorkerPhase.finished
                 is_playing := false
                 writes := p.writes ++ cs } := by
    rw [List.replicate_succ', runWorker_append, hsent cs.length (le_refl _)]
    simp only [List.drop_length, List.take_length, List.map_nil,
      List.nil_append]
    rw [runWorker_cons, runWorker_nil]
    simp [worker_step, hw, hp]
  refine ⟨h2, by simp [h1], ?_, ?_, ?_, ?_⟩
  · rw [h1, hdrain]
  · intro j hj
    rw [h1, hsent j hj]
  · rw [h1, hfinal]
  · rw [h1, hfinal]

/-- C1 witness: two concrete chunks enqueued into the playing player are
written in exactly that order by two worker steps. -/
theorem c1_fifo_order_witness :
    (runWorker (addChunks pLoop [cA, cB]).1
      (List.replicate 2 true)).writes = pLoop.writes ++ [cA, cB] :=
  (c1_fifo_order pLoop [cA, cB] (by decide) (by decide) (by decide)
    (by decide)).2.2.1

/-- C3 counterexample: one chunk is successfully enqueued on the playing
player and stop is called before the worker dequeues it.  The claim says
the total count of device writes then equals 1, the number of chunks
enqueued strictly before the stop; in the code, stop clears is_playing
before the worker could play the chunk and drains the queue, so the
worker exits without writing it: the write count is 0 and stays 0 over
any further worker scheduling. -/
theorem c3_counterexample :
    (add_chunk pLoop cA).2 = true
    ∧ (stop pEnq).writes.length = 0
    ∧ (runWorker (stop pEnq) (List.replicate 8 true)).writes.length = 0
    ∧ (runWorker (stop pEnq) (List.replicate 8 true)).worker
        = WorkerPhase.finished
    ∧ ¬ (runWorker (stop pEnq) (List.replicate 8 true)).writes.length
        = 1 := by
  decide

/-- C3 amended: when stop is called on a playing session, every element
still in the queue — including chunks enqueued strictly before the call
that the worker has not yet dequeued — is drained and discarded and is
never written; after stop the queue is empty, the playing flag is
cleared, and no worker scheduling ever adds a device write, so the total
count of device writes equals the number of chunks the worker had
already written when stop was called, which is at most (not necessarily
equal to) the number of chunks enqueued strictly before stop. -/
theorem c3_stop_discards (p : RealTimeWavPlayer)
    (hp : p.is_playing = true) :
    (stop p).queue = []
    ∧ (stop p).is_playing = false
    ∧ (stop p).writes = p.writes
    ∧ ∀ oks : List Bool, (runWorker (stop p) oks).writes = p.writes := by
  have hs : stop p = { p with is_playing := false, queue := [] } := by
    simp [stop, hp]
  refine ⟨by simp [hs], by simp [hs], by simp [hs], ?_⟩
  intro oks
  calc (runWorker (stop p) oks).writes
      = (stop p).writes :=
        (runWorker_not_playing oks (stop p) (stop_is_playing p)).1
    _ = p.writes := by simp [hs]

/-- C3 amended witness: stopping the playing player that still holds one
queued chunk empties the queue and freezes the write log. -/
theorem c3_stop_discards_witness :
    (stop pEnq).queue = [] ∧ (stop pEnq).writes = pEnq.writes :=
  ⟨(c3_stop_discards pEnq (by decide)).1,
   (c3_stop_discards pEnq (by decide)).2.2.1⟩

/-- C5: a device write failure on the chunk at the head of the queue
makes the worker break its loop: the failed chunk is not recorded as a
write, the stream is stopped and closed, the worker finishes and
is_playing is cleared, while the process (the PyAudio instance) is not
terminated; afterwards no worker scheduling ever changes the state
again — so chunks still queued are never written — and every subsequent
add_chunk returns false without changing the state. -/
theorem c5_device_failure (p : RealTimeWavPlayer) (c : Chunk)
    (rest : List QElem) (hw : p.worker = WorkerPhase.looping)
    (hp : p.is_playing = true) (hq : p.queue = QElem.chunk c :: rest) :
    worker_step p false
      = { p with queue := rest
                 stream_open := false
                 worker := WorkerPhase.finished
                 is_playing := false }
    ∧ (worker_step p false).writes = p.writes
    ∧ (worker_step p false).terminated = p.terminated
    ∧ (∀ oks : List Bool,
        runWorker (worker_step p false) oks = worker_step p false)
    ∧ (∀ d : Chunk,
        add_chunk (worker_step p false) d = (worker_step p false, false)) := by
  have hmain : worker_step p false
      = { p with queue := rest
                 stream_open := false
                 worker := WorkerPhase.finished
                 is_playing := false } := by
    simp [worker_step, hw, hp, hq]
  refine ⟨hmain, by simp [hmain], by simp [hmain], ?_, ?_⟩
  · intro oks
    exact runWorker_finished oks (worker_step p false) (by simp [hmain])
  · intro d
    rw [hmain]
    simp [add_chunk]

/-- C5 witness: a failed write on the player holding one queued chunk
records no write, and a later enqueue fails without changing the
state. -/
theorem c5_device_failure_witness :
    (worker_step pEnq false).writes = pEnq.writes
    ∧ add_chunk (worker_step pEnq false) cB
      = (worker_step pEnq false, false) :=
  ⟨(c5_device_failure pEnq cA [] (by decide) (by decide) (by decide)).2.1,
   (c5_device_failure pEnq cA [] (by decide) (by decide) (by decide)).2.2.2.2
     cB⟩
